import Mathlib

/-!
Verification development for the `ari_client` Python library: a shallow
embedding of its event-dispatch engine (`ari_client/ari_client.py`), the
domain models (`models/channels.py`, `models/bridge.py`, `models/events.py`)
and the controller call sites (`controller.py`), together with theorems
settling the behavioural claims of the specification.

Conventions of the embedding:
- Python exceptions become an explicit `PyErr` type; fallible code returns
  `Except PyErr _`.
- The capability callables passed around as handlers (bound methods of
  `AriClientController`) are represented by the `Cap` enumeration; invoking
  a capability is recorded as the pair `(capability, argument list)`.
- pydantic validation (`model_validate` / `model_validate_json`) is embedded
  per model over `RawMsg` / `RawChannel` / `RawBridge`, records of the
  optional fields a parsed JSON message can carry; a missing required field
  is a `ValidationError`.  `datetime.fromisoformat` applied to an already
  normalized timestamp string is kept abstract: validated models store the
  normalized string itself.
- Python keyword-argument binding at the call sites that matter is made
  explicit (`kwargsBindOk`): a keyword that does not name a parameter of the
  callee raises `TypeError`, exactly as in CPython.
-/

deriving instance DecidableEq for Except

namespace AriSpec

/-- Python exception values relevant to the client.  `cancelledError` models
`asyncio.CancelledError`, which since Python 3.8 derives from `BaseException`
and is therefore NOT caught by `except Exception`.  `wsException` models
`websockets.exceptions.WebSocketException` (and its subclasses such as
`ConnectionClosed`), which DOES derive from `Exception`. -/
inductive PyErr where
  | validationError
  | typeError
  | valueError (msg : String)
  | wsException
  | cancelledError
  | otherError (tag : String)
deriving DecidableEq, Repr

/-- Whether the exception is caught by a Python `except Exception` clause:
every `PyErr` except `asyncio.CancelledError` (a `BaseException`). -/
def PyErr.isExceptionSubclass : PyErr → Bool
  | .cancelledError => false
  | _ => true

/-- The controller capabilities that are passed as handler callables
(bound methods of `AriClientController` in `controller.py`). -/
inductive Cap where
  | answerChannel
  | stopChannel
  | dial
  | stopBridge
  | bridgeAddChannel
deriving DecidableEq, Repr

/-- A recorded capability invocation: the capability and its argument list
(entity ids). -/
abbrev CapCall := Cap × List String

/-- Embedding of the end-anchored substitution
`re.sub(r'([+-])(\d{2})(\d{2})$', r'\1\2:\3', v)` on a character list:
if the list ends with a sign followed by four digits, a colon is inserted
between the two digit pairs; otherwise the list is unchanged. -/
def applyTzSub (cs : List Char) : List Char :=
  if 5 ≤ cs.length then
    match cs.drop (cs.length - 5) with
    | [s, a, b, c, d] =>
      if (s = '+' ∨ s = '-') ∧ a.isDigit ∧ b.isDigit ∧ c.isDigit ∧ d.isDigit then
        cs.take (cs.length - 5) ++ [s, a, b, ':', c, d]
      else cs
    | _ => cs
  else cs

/-- Python's `$` in a non-multiline pattern also matches just before a single
trailing newline, so `re.sub` with an end-anchored pattern may rewrite the
offset sitting before a final `'\n'`. -/
def normalizeTz (cs : List Char) : List Char :=
  if cs.getLast? = some '\n' then applyTzSub cs.dropLast ++ ['\n']
  else applyTzSub cs

/-- The timestamp normalization shared by `Channel.validate_creationtime`
(`models/channels.py` lines 38-46), `Bridge.validate_creationtime` and the
`validate_timestamp` validators of both events (`models/events.py`): rewrite
a colon-less timezone offset such as `+0300` to `+03:00`.  The normalized
string is afterwards handed to `datetime.fromisoformat`, which we keep
abstract: equal normalized strings denote equal instants. -/
def normalizeTzOffset (s : String) : String :=
  ⟨normalizeTz s.data⟩

/-- CallerID model (`models/channels.py`): both fields default to `""`. -/
structure CallerID where
  name : String := ""
  number : String := ""
deriving DecidableEq, Repr

/-- DialplanCEP model (`models/channels.py`). -/
structure DialplanCEP where
  context : String
  exten : String
  priority : Int
  app_name : Option String := none
  app_data : Option String := none
deriving DecidableEq, Repr

/-- The pydantic data fields of `Channel` (`models/channels.py` lines 20-33).
`creationtime` holds the normalized timestamp string produced by
`validate_creationtime`.  The `channelvars` map is represented as an
association list. -/
structure ChannelData where
  id : String
  protocol_id : String := ""
  name : String
  state : String
  caller : CallerID
  connected : CallerID
  accountcode : String := ""
  dialplan : DialplanCEP
  creationtime : String
  language : Option String := none
  channelvars : Option (List (String × String)) := none
  caller_rdnis : Option String := none
  tenantid : Option String := none
deriving DecidableEq, Repr

/-- A `Channel` instance: the pydantic fields together with the two private
attributes `__answer_handler` and `__stop_handler` (`models/channels.py`
lines 35-36), which default to `None`. -/
structure Channel where
  data : ChannelData
  answerHandler : Option Cap := none
  stopHandler : Option Cap := none
deriving DecidableEq, Repr

/-- Method `Channel.add_handlers` (`models/channels.py` lines 60-67): set the
two private handler attributes.  Its Python parameter list is exactly
`(self, answer_handler, stop_handler)`. -/
def Channel.add_handlers (c : Channel) (answer_handler stop_handler : Cap) : Channel :=
  { c with answerHandler := some answer_handler, stopHandler := some stop_handler }

/-- Method `Channel.answer` (`models/channels.py` lines 69-72): raise
`ValueError` when the private handler is unset, otherwise invoke the
capability with the channel's own id. -/
def Channel.answer (c : Channel) : Except PyErr CapCall :=
  match c.answerHandler with
  | none => .error (.valueError "Answer handler not set")
  | some h => .ok (h, [c.data.id])

/-- Method `Channel.stop` (`models/channels.py` lines 74-77). -/
def Channel.stop (c : Channel) : Except PyErr CapCall :=
  match c.stopHandler with
  | none => .error (.valueError "Stop handler not set")
  | some h => .ok (h, [c.data.id])

/-- BridgeType enumeration (`models/bridge.py`). -/
inductive BridgeType where
  | mixing
  | holding
deriving DecidableEq, Repr

/-- VideoMode enumeration (`models/bridge.py`). -/
inductive VideoMode where
  | noneMode
  | talker
  | sfu
  | single
deriving DecidableEq, Repr

/-- The pydantic data fields of `Bridge` (`models/bridge.py` lines 20-30). -/
structure BridgeData where
  id : String
  technology : String
  bridge_type : BridgeType
  bridge_class : String
  creator : String
  name : String
  channels : List String := []
  video_mode : Option VideoMode := none
  video_source_id : Option String := none
  creationtime : String
deriving DecidableEq, Repr

/-- A `Bridge` instance: data fields plus the private attributes
`__stop_handler` and `__add_channel_handler` (`models/bridge.py` lines
32-33). -/
structure Bridge where
  data : BridgeData
  stopHandler : Option Cap := none
  addChannelHandler : Option Cap := none
deriving DecidableEq, Repr

/-- Method `Bridge.stop` (`models/bridge.py` lines 57-60). -/
def Bridge.stop (b : Bridge) : Except PyErr CapCall :=
  match b.stopHandler with
  | none => .error (.valueError "Stop handler not set")
  | some h => .ok (h, [b.data.id])

/-- Method `Bridge.add_channel` (`models/bridge.py` lines 62-65): invoke the
handler with the bridge id and the channel id. -/
def Bridge.add_channel (b : Bridge) (channel_id : String) : Except PyErr CapCall :=
  match b.addChannelHandler with
  | none => .error (.valueError "Add channel handler not set")
  | some h => .ok (h, [b.data.id, channel_id])

/-- The fields a parsed JSON channel object may carry, before validation.
`none` means the field is absent from the message. -/
structure RawChannel where
  id? : Option String := none
  protocol_id? : Option String := none
  name? : Option String := none
  state? : Option String := none
  caller? : Option CallerID := none
  connected? : Option CallerID := none
  accountcode? : Option String := none
  dialplan? : Option DialplanCEP := none
  creationtime? : Option String := none
  language? : Option String := none
  channelvars? : Option (List (String × String)) := none
  caller_rdnis? : Option String := none
  tenantid? : Option String := none
deriving DecidableEq, Repr

/-- pydantic validation of `Channel`: each field without a default is
required; `creationtime` passes through `validate_creationtime`, i.e. it is
stored in normalized form.  The private handler attributes of a freshly
validated channel are `None`. -/
def Channel.model_validate (rc : RawChannel) : Except PyErr Channel :=
  match rc.id?, rc.name?, rc.state?, rc.caller?, rc.connected?, rc.dialplan?, rc.creationtime? with
  | some i, some n, some st, some ca, some co, some dp, some ct =>
    .ok { data :=
            { id := i
              protocol_id := rc.protocol_id?.getD ""
              name := n
              state := st
              caller := ca
              connected := co
              accountcode := rc.accountcode?.getD ""
              dialplan := dp
              creationtime := normalizeTzOffset ct
              language := rc.language?
              channelvars := rc.channelvars?
              caller_rdnis := rc.caller_rdnis?
              tenantid := rc.tenantid? } }
  | _, _, _, _, _, _, _ => .error .validationError

/-- The fields a parsed JSON bridge object may carry, before validation. -/
structure RawBridge where
  id? : Option String := none
  technology? : Option String := none
  bridge_type? : Option BridgeType := none
  bridge_class? : Option String := none
  creator? : Option String := none
  name? : Option String := none
  channels? : Option (List String) := none
  video_mode? : Option VideoMode := none
  video_source_id? : Option String := none
  creationtime? : Option String := none
deriving DecidableEq, Repr

/-- pydantic validation of `Bridge` (required fields; `channels` defaults to
the empty list; `creationtime` normalized by `validate_creationtime`). -/
def Bridge.model_validate (rb : RawBridge) : Except PyErr Bridge :=
  match rb.id?, rb.technology?, rb.bridge_type?, rb.bridge_class?, rb.creator?, rb.name?, rb.creationtime? with
  | some i, some te, some bt, some bc, some cr, some n, some ct =>
    .ok { data :=
            { id := i
              technology := te
              bridge_type := bt
              bridge_class := bc
              creator := cr
              name := n
              channels := rb.channels?.getD []
              video_mode := rb.video_mode?
              video_source_id := rb.video_source_id?
              creationtime := normalizeTzOffset ct } }
  | _, _, _, _, _, _, _ => .error .validationError

/-- EventType enumeration (`models/events.py`): a `str`-valued enum with the
two members `StasisStart` and `StasisEnd`. -/
inductive EventType where
  | stasisStart
  | stasisEnd
deriving DecidableEq, Repr

/-- Coercion of a wire string into the `EventType` enum, as pydantic performs
for a field annotated `EventType`. -/
def EventType.ofString? (s : String) : Option EventType :=
  if s = "StasisStart" then some .stasisStart
  else if s = "StasisEnd" then some .stasisEnd
  else none

/-- The generic `Event` envelope model (`models/events.py` lines 15-16): its
single field is `type : EventType | str`, so any string is accepted; all
other message fields are ignored (pydantic's default `extra='ignore'`). -/
structure Event where
  type : String
deriving DecidableEq, Repr

/-- The content of a parsed inbound JSON message.  `parseOk = false` models
text that is not valid JSON (so every `model_validate_json` on it raises).
`extra` carries fields that belong to no known model slot. -/
structure RawMsg where
  parseOk : Bool := true
  type? : Option String := none
  timestamp? : Option String := none
  args? : Option (List String) := none
  channel? : Option RawChannel := none
  asterisk_id? : Option String := none
  application? : Option String := none
  extra : List (String × String) := []
deriving DecidableEq, Repr

/-- `Event.model_validate_json` as called at `ari_client.py` line 68: parse
the envelope and require the `type` field; any string value is accepted by
the `EventType | str` union.  Unknown fields are dropped. -/
def Event.model_validate_json (m : RawMsg) : Except PyErr Event :=
  if m.parseOk then
    match m.type? with
    | some t => .ok ⟨t⟩
    | none => .error .validationError
  else .error .validationError

/-- `StasisStartEvent` model (`models/events.py` lines 18-34).  `timestamp`
holds the normalized string produced by `validate_timestamp`. -/
structure StasisStartEvent where
  type : EventType
  timestamp : String
  args : List String
  channel : Channel
  asterisk_id : String
  application : String
deriving DecidableEq, Repr

/-- `StasisEndEvent` model (`models/events.py` lines 37-50). -/
structure StasisEndEvent where
  type : EventType
  timestamp : String
  channel : Channel
  application : String
deriving DecidableEq, Repr

/-- `StasisStartEvent.model_validate_json`: `type` defaults to
`EventType.STASIS_START` when absent but must coerce into the enum when
present; `timestamp`, `channel`, `asterisk_id` and `application` are
required; `args` defaults to `[]`. -/
def StasisStartEvent.model_validate_json (m : RawMsg) : Except PyErr StasisStartEvent :=
  if m.parseOk then
    match (match m.type? with
           | some t => EventType.ofString? t
           | none => some .stasisStart) with
    | none => .error .validationError
    | some ty =>
      match m.timestamp?, m.channel?, m.asterisk_id?, m.application? with
      | some ts, some rc, some aid, some app =>
        match Channel.model_validate rc with
        | .error e => .error e
        | .ok ch =>
          .ok { type := ty
                timestamp := normalizeTzOffset ts
                args := m.args?.getD []
                channel := ch
                asterisk_id := aid
                application := app }
      | _, _, _, _ => .error .validationError
  else .error .validationError

/-- `StasisEndEvent.model_validate_json`: like `StasisStartEvent` but without
`args` and `asterisk_id`, and with default type `EventType.STASIS_END`. -/
def StasisEndEvent.model_validate_json (m : RawMsg) : Except PyErr StasisEndEvent :=
  if m.parseOk then
    match (match m.type? with
           | some t => EventType.ofString? t
           | none => some .stasisEnd) with
    | none => .error .validationError
    | some ty =>
      match m.timestamp?, m.channel?, m.application? with
      | some ts, some rc, some app =>
        match Channel.model_validate rc with
        | .error e => .error e
        | .ok ch =>
          .ok { type := ty
                timestamp := normalizeTzOffset ts
                channel := ch
                application := app }
      | _, _, _ => .error .validationError
  else .error .validationError

/-- Python keyword-argument binding for a call made purely with keywords
against a parameter list with no defaults and no `**kwargs`: the call binds
successfully iff every supplied keyword names a parameter and every
parameter is supplied.  An unexpected keyword raises `TypeError` before any
statement of the callee body runs. -/
def kwargsBindOk (params kwargs : List String) : Bool :=
  kwargs.all (fun k => params.contains k) && params.all (fun p => kwargs.contains p)

/-- Parameter names of `Channel.add_handlers` (`models/channels.py` lines
60-64), beyond `self`. -/
def addHandlersParams : List String := ["answer_handler", "stop_handler"]

/-- Parameter names of `Channel.create_with_handlers` (`models/channels.py`
lines 48-54), beyond `cls`. -/
def createWithHandlersParams : List String := ["answer_handler", "stop_handler", "obj"]

/-- Parameter names of `Bridge.create_with_handlers` (`models/bridge.py`
lines 45-50), beyond `cls`. -/
def bridgeCreateWithHandlersParams : List String := ["stop_handler", "add_channel_handler", "obj"]

/-- A keyword call `channel.add_handlers(**kwargs)`: check keyword binding,
then run the method body.  With an unexpected or missing keyword the call
raises `TypeError` and the channel is left unmodified. -/
def Channel.add_handlers_call (c : Channel) (kwargs : List (String × Cap)) : Except PyErr Channel :=
  if kwargsBindOk addHandlersParams (kwargs.map Prod.fst) then
    match kwargs.lookup "answer_handler", kwargs.lookup "stop_handler" with
    | some ah, some sh => .ok (c.add_handlers ah sh)
    | _, _ => .error .typeError
  else .error .typeError

/-- Method `Channel.create_with_handlers` (`models/channels.py` lines 48-58):
validate the object and set both private handlers. -/
def Channel.create_with_handlers (answer_handler stop_handler : Cap) (obj : RawChannel) : Except PyErr Channel :=
  match Channel.model_validate obj with
  | .error e => .error e
  | .ok c => .ok { c with answerHandler := some answer_handler, stopHandler := some stop_handler }

/-- A keyword call `Channel.create_with_handlers(**kwargs, obj=obj)`. -/
def Channel.create_with_handlers_call (kwargs : List (String × Cap)) (obj : RawChannel) : Except PyErr Channel :=
  if kwargsBindOk createWithHandlersParams (kwargs.map Prod.fst ++ ["obj"]) then
    match kwargs.lookup "answer_handler", kwargs.lookup "stop_handler" with
    | some ah, some sh => Channel.create_with_handlers ah sh obj
    | _, _ => .error .typeError
  else .error .typeError

/-- Method `Bridge.create_with_handlers` (`models/bridge.py` lines 45-55). -/
def Bridge.create_with_handlers (stop_handler add_channel_handler : Cap) (obj : RawBridge) : Except PyErr Bridge :=
  match Bridge.model_validate obj with
  | .error e => .error e
  | .ok b => .ok { b with stopHandler := some stop_handler, addChannelHandler := some add_channel_handler }

/-- A keyword call `Bridge.create_with_handlers(**kwargs, obj=obj)`. -/
def Bridge.create_with_handlers_call (kwargs : List (String × Cap)) (obj : RawBridge) : Except PyErr Bridge :=
  if kwargsBindOk bridgeCreateWithHandlersParams (kwargs.map Prod.fst ++ ["obj"]) then
    match kwargs.lookup "stop_handler", kwargs.lookup "add_channel_handler" with
    | some sh, some ach => Bridge.create_with_handlers sh ach obj
    | _, _ => .error .typeError
  else .error .typeError

/-- The exact keyword call written at `ari_client.py` lines 72-76 (and again
at lines 80-84): `channel.add_handlers(answer_handler=self.controller.answer_channel,
stop_handler=self.controller.stop_channel, dial_handler=self.controller.dial)`. -/
def bindChannelFromListener (c : Channel) : Except PyErr Channel :=
  c.add_handlers_call
    [("answer_handler", Cap.answerChannel),
     ("stop_handler", Cap.stopChannel),
     ("dial_handler", Cap.dial)]

/-- The exact keyword call written in `controller.py` at `create_channel`
(lines 41-46), and repeated verbatim in `create_external_media`, `originate`
and `originate_with_id`: `Channel.create_with_handlers(answer_handler=self.answer_channel,
stop_handler=self.stop_channel, dial_handler=self.dial, obj=response.json())`. -/
def controllerBindChannel (obj : RawChannel) : Except PyErr Channel :=
  Channel.create_with_handlers_call
    [("answer_handler", Cap.answerChannel),
     ("stop_handler", Cap.stopChannel),
     ("dial_handler", Cap.dial)]
    obj

/-- The keyword call written in `controller.py` at `create_bridge` (lines
73-77): `Bridge.create_with_handlers(stop_handler=self.stop_bridge,
add_channel_handler=self.bridge_add_channel, obj=response.json())`. -/
def controllerBindBridge (obj : RawBridge) : Except PyErr Bridge :=
  Bridge.create_with_handlers_call
    [("stop_handler", Cap.stopBridge),
     ("add_channel_handler", Cap.bridgeAddChannel)]
    obj

/-- The mutable fields of `AriClient` that the listen loop reads: the two
registered handler slots (user callbacks are identified by a number) and
whether `self.controller` is set.  The loop itself never writes them. -/
structure ClientState where
  stasisStartHandler : Option Nat := none
  stasisEndHandler : Option Nat := none
  hasController : Bool := true
deriving DecidableEq, Repr

/-- `AriClient.on_stasis_start` (`ari_client.py` lines 108-127): both the
decorator and the direct-call forms assign `self.stasis_start_handler`,
silently replacing any previous handler. -/
def on_stasis_start (st : ClientState) (h : Nat) : ClientState :=
  { st with stasisStartHandler := some h }

/-- `AriClient.on_stasis_end` (`ari_client.py` lines 129-148). -/
def on_stasis_end (st : ClientState) (h : Nat) : ClientState :=
  { st with stasisEndHandler := some h }

/-- A handler task created by `asyncio.create_task(handler(event))` inside
`AriClient.__dispatch`.  The recorded event is the event object as the
handler coroutine observes it when it first runs, i.e. after the loop body
reached its next suspension point (`__dispatch` contains no `await` before
`create_task`, so the task body starts only once `__listen_events` suspends
again; by then `add_handlers` has run - or raised - on the shared
`event.channel`). -/
inductive Launch where
  | start (handler : Nat) (event : StasisStartEvent)
  | stop (handler : Nat) (event : StasisEndEvent)
deriving DecidableEq, Repr

/-- The user-callback number a launch will invoke. -/
def Launch.handlerId : Launch → Nat
  | .start h _ => h
  | .stop h _ => h

/-- Whether the launch is a StasisStart dispatch. -/
def Launch.isStart : Launch → Bool
  | .start _ _ => true
  | .stop _ _ => false

/-- Observable effects of one iteration of the `while True` loop body. -/
structure IterEffects where
  launched : List Launch := []
  errorLogged : Bool := false
  debugLogged : Bool := false
deriving DecidableEq, Repr

/-- Outcome of `await self.ws.recv()`: a message, or a raised exception
(e.g. `ConnectionClosed`, a `WebSocketException`, when the transport fails,
or `CancelledError` when the task is cancelled). -/
inductive RecvResult where
  | msg (m : RawMsg)
  | raise (e : PyErr)
deriving DecidableEq, Repr

/-- Whether the loop proceeds to the next iteration or terminates with a
propagating exception. -/
inductive LoopControl where
  | next
  | fault (e : PyErr)
deriving DecidableEq, Repr

/-- The statements of the inner `try` body after `recv` succeeded
(`ari_client.py` lines 68-86): validate the envelope, branch on the type,
run `__dispatch` (lines 56-61: full typed validation, then task creation
when a handler is registered), then - when `self.controller` is set - the
`add_handlers` keyword call on the event's channel.  Result: the launches
and the debug-log flag produced so far, paired with the exception escaping
the body, if any.  A launch survives a later exception of the same body
because the task was already created. -/
def listenInner (st : ClientState) (m : RawMsg) : (List Launch × Bool) × Option PyErr :=
  match Event.model_validate_json m with
  | .error e => (([], false), some e)
  | .ok ev =>
    if ev.type = "StasisStart" then
      match StasisStartEvent.model_validate_json m with
      | .error e => (([], false), some e)
      | .ok sev =>
        let ls := match st.stasisStartHandler with
                  | some h => [Launch.start h sev]
                  | none => []
        if st.hasController then
          match bindChannelFromListener sev.channel with
          | .error e =>
            ((ls, false), some e)
          | .ok ch =>
            ((ls.map (fun l => match l with
                               | .start h e0 => .start h { e0 with channel := ch }
                               | l0 => l0), false), none)
        else ((ls, false), none)
    else if ev.type = "StasisEnd" then
      match StasisEndEvent.model_validate_json m with
      | .error e => (([], false), some e)
      | .ok sev =>
        let ls := match st.stasisEndHandler with
                  | some h => [Launch.stop h sev]
                  | none => []
        if st.hasController then
          match bindChannelFromListener sev.channel with
          | .error e =>
            ((ls, false), some e)
          | .ok ch =>
            ((ls.map (fun l => match l with
                               | .stop h e0 => .stop h { e0 with channel := ch }
                               | l0 => l0), false), none)
        else ((ls, false), none)
    else (([], true), none)

/-- One iteration of `AriClient.__listen_events` (`ari_client.py` lines
63-99).  The inner `try` wraps `recv` and the whole body; its
`except Exception` clause (lines 87-90) logs and `continue`s for every
exception deriving from `Exception` - including `WebSocketException` raised
by `recv`.  Only exceptions that are not `Exception` subclasses (i.e.
`CancelledError`) escape to the outer handlers (lines 91-99), each of which
re-raises, terminating the loop. -/
def listenIteration (st : ClientState) (r : RecvResult) : IterEffects × LoopControl :=
  let (effs, err?) :=
    match r with
    | .raise e => (({} : IterEffects), some e)
    | .msg m =>
      let ((ls, dbg), err?) := listenInner st m
      ({ launched := ls, errorLogged := false, debugLogged := dbg }, err?)
  match err? with
  | none => (effs, .next)
  | some e =>
    if e.isExceptionSubclass then ({ effs with errorLogged := true }, .next)
    else (effs, .fault e)

/-- Run the listen loop over a finite prefix of `recv` outcomes: iterate
until a fault terminates the loop or the prefix is exhausted (the loop is
then still in its reading state).  Returns the per-iteration effects and
the propagated exception, if any. -/
def runListen (st : ClientState) (rs : List RecvResult) : List IterEffects × Option PyErr :=
  match rs with
  | [] => ([], none)
  | r :: rest =>
    match listenIteration st r with
    | (eff, .next) =>
      let (effs, f) := runListen st rest
      (eff :: effs, f)
    | (eff, .fault e) => ([eff], some e)

/-- `AriClient._handle_task_exception` (`ari_client.py` lines 101-106), the
done-callback attached to every handler task: `task.result()` re-raises the
task's exception; `except Exception` absorbs and logs it.  Result: the
exception escaping the callback (only possible for a non-`Exception` such
as `CancelledError`), and whether the error was logged.  An exception that
escapes a done-callback is handed to the event loop's exception handler; it
is never raised into `__listen_events`. -/
def handle_task_exception (res : Except PyErr Unit) : Option PyErr × Bool :=
  match res with
  | .ok _ => (none, false)
  | .error e => if e.isExceptionSubclass then (none, true) else (some e, false)

/-- One scheduling round interleaving handler-task completions with the next
`recv` outcome: the completions' done-callbacks run on the event loop before
(or between) the loop's reads. -/
structure SchedStep where
  completions : List (Except PyErr Unit)
  recv : RecvResult
deriving Repr

/-- Run the listen loop while also running the done-callbacks of completed
handler tasks.  Per asyncio semantics the callbacks run on the event loop
and nothing they do - including raising - enters the reading coroutine; the
model records which completions were logged by `_handle_task_exception`. -/
def runListenWithTasks (st : ClientState) (steps : List SchedStep) :
    (List (List Bool) × List IterEffects) × Option PyErr :=
  match steps with
  | [] => (([], []), none)
  | s :: rest =>
    let logs := s.completions.map (fun r => (handle_task_exception r).2)
    match listenIteration st s.recv with
    | (eff, .next) =>
      let ((lgs, effs), f) := runListenWithTasks st rest
      ((logs :: lgs, eff :: effs), f)
    | (eff, .fault e) => (([logs], [eff]), some e)

/-- pydantic v2 `BaseModel.__eq__` (pydantic 2.x, `pydantic/main.py`): two
models compare equal iff they have the same class, equal
`__pydantic_private__` dictionaries - which hold the private handler
attributes - equal extras, and equal model fields.  For `Channel` this means
the data fields AND both private handlers must agree. -/
def Channel.pyEq (a b : Channel) : Bool :=
  decide (a.answerHandler = b.answerHandler) &&
  decide (a.stopHandler = b.stopHandler) &&
  decide (a.data = b.data)

/-- pydantic v2 `BaseModel.__eq__` for `Bridge`: data fields and both private
handler attributes. -/
def Bridge.pyEq (a b : Bridge) : Bool :=
  decide (a.stopHandler = b.stopHandler) &&
  decide (a.addChannelHandler = b.addChannelHandler) &&
  decide (a.data = b.data)

/-- Sample caller identity. -/
def caller0 : CallerID := { name := "Alice", number := "100" }

/-- Sample dialplan position. -/
def dialplan0 : DialplanCEP := { context := "default", exten := "1001", priority := 1 }

/-- A well-formed wire channel object for channel `c1` in state `Ring`, with
a colon-less timezone offset in its creation timestamp. -/
def rawChannel0 : RawChannel :=
  { id? := some "c1"
    name? := some "SIP/c1-0000a7e3"
    state? := some "Ring"
    caller? := some caller0
    connected? := some {}
    dialplan? := some dialplan0
    creationtime? := some "2024-01-01T12:00:00+0300" }

/-- The channel `Channel.model_validate rawChannel0` produces: normalized
creation timestamp, no handlers bound. -/
def channel0 : Channel :=
  { data :=
      { id := "c1"
        name := "SIP/c1-0000a7e3"
        state := "Ring"
        caller := caller0
        connected := {}
        dialplan := dialplan0
        creationtime := "2024-01-01T12:00:00+03:00" } }

/-- A well-formed `StasisStart` wire message carrying `rawChannel0`. -/
def mStart0 : RawMsg :=
  { type? := some "StasisStart"
    timestamp? := some "2024-01-01T12:00:00+0300"
    args? := some []
    channel? := some rawChannel0
    asterisk_id? := some "ast1"
    application? := some "app" }

/-- The event `StasisStartEvent.model_validate_json mStart0` produces. -/
def sev0 : StasisStartEvent :=
  { type := .stasisStart
    timestamp := "2024-01-01T12:00:00+03:00"
    args := []
    channel := channel0
    asterisk_id := "ast1"
    application := "app" }

/-- A malformed message: the raw text is not valid JSON, so every
`model_validate_json` raises `ValidationError`. -/
def mMalformed0 : RawMsg := { parseOk := false }

/-- A malformed `StasisStart` message: the envelope parses but the typed
payload is missing its required `channel` field. -/
def mNoChannel0 : RawMsg :=
  { type? := some "StasisStart"
    timestamp? := some "2024-01-01T12:00:00+0300"
    asterisk_id? := some "ast1"
    application? := some "app" }

/-- A well-formed message of an unknown future kind, carrying an extra
field. -/
def mUnknown0 : RawMsg :=
  { type? := some "unknown-future-kind"
    extra := [("foo", "bar")] }

/-- The same unknown-kind message without the extra field. -/
def mUnknownBare0 : RawMsg := { type? := some "unknown-future-kind" }

/-- A well-formed wire bridge object. -/
def rawBridge0 : RawBridge :=
  { id? := some "b1"
    technology? := some "simple_bridge"
    bridge_type? := some .mixing
    bridge_class? := some "bridge"
    creator? := some "test"
    name? := some "test_bridge"
    creationtime? := some "2024-01-01T12:00:00+0300" }

/-- Client state with a registered StasisStart handler (number 0) and a
connected controller. -/
def st0 : ClientState := { stasisStartHandler := some 0 }

/-- The bridge data `Bridge.model_validate rawBridge0` produces. -/
def bridgeData0 : BridgeData :=
  { id := "b1"
    technology := "simple_bridge"
    bridge_type := .mixing
    bridge_class := "bridge"
    creator := "test"
    name := "test_bridge"
    creationtime := "2024-01-01T12:00:00+03:00" }

/-- The bridge `controllerBindBridge rawBridge0` produces: data plus both
capabilities. -/
def bridge0 : Bridge :=
  { data := bridgeData0
    stopHandler := some .stopBridge
    addChannelHandler := some .bridgeAddChannel }

/-- Whether a single message fails decoding on the path `__listen_events`
takes: the generic envelope validation fails, or the envelope names a known
kind whose full typed validation fails. -/
def decodeFails (m : RawMsg) : Bool :=
  match Event.model_validate_json m with
  | .error _ => true
  | .ok ev =>
    if ev.type = "StasisStart" then
      match StasisStartEvent.model_validate_json m with
      | .error _ => true
      | .ok _ => false
    else if ev.type = "StasisEnd" then
      match StasisEndEvent.model_validate_json m with
      | .error _ => true
      | .ok _ => false
    else false

end AriSpec

namespace AriSpec

theorem applyTzSub_uncolon (p : List Char) (s a b c d : Char)
    (hs : s = '+' ∨ s = '-') (ha : a.isDigit = true) (hb : b.isDigit = true)
    (hc : c.isDigit = true) (hd : d.isDigit = true) :
    applyTzSub (p ++ [s, a, b, c, d]) = p ++ [s, a, b, ':', c, d] := by
  have hlen : (p ++ [s, a, b, c, d]).length = p.length + 5 := by simp
  have hdrop : (p ++ [s, a, b, c, d]).drop p.length = [s, a, b, c, d] :=
    List.drop_left' rfl
  have htake : (p ++ [s, a, b, c, d]).take p.length = p :=
    List.take_left' rfl
  unfold applyTzSub
  rw [hlen, Nat.add_sub_cancel, hdrop, htake,
    if_pos (Nat.le_add_left 5 p.length)]
  dsimp only
  rw [if_pos ⟨hs, ha, hb, hc, hd⟩]

theorem applyTzSub_colon (p : List Char) (s a b c d : Char) :
    applyTzSub (p ++ [s, a, b, ':', c, d]) = p ++ [s, a, b, ':', c, d] := by
  have hlen : (p ++ [s, a, b, ':', c, d]).length = p.length + 6 := by simp
  have hsub : p.length + 6 - 5 = p.length + 1 := by omega
  have hdrop : (p ++ [s, a, b, ':', c, d]).drop (p.length + 1) = [a, b, ':', c, d] := by
    rw [show p ++ [s, a, b, ':', c, d] = (p ++ [s]) ++ [a, b, ':', c, d] by simp]
    exact List.drop_left' (by simp)
  unfold applyTzSub
  rw [hlen, hsub, hdrop, if_pos (by omega : 5 ≤ p.length + 6)]
  dsimp only
  rw [if_neg]
  rintro ⟨-, -, hcolon, -⟩
  exact absurd hcolon (by decide)

theorem normalizeTz_uncolon (p : List Char) (s a b c d : Char)
    (hs : s = '+' ∨ s = '-') (ha : a.isDigit = true) (hb : b.isDigit = true)
    (hc : c.isDigit = true) (hd : d.isDigit = true) :
    normalizeTz (p ++ [s, a, b, c, d]) = p ++ [s, a, b, ':', c, d] := by
  have hlast : (p ++ [s, a, b, c, d]).getLast? = some d := by
    rw [show p ++ [s, a, b, c, d] = (p ++ [s, a, b, c]) ++ [d] by simp,
      List.getLast?_append_cons]
    rfl
  unfold normalizeTz
  rw [if_neg, applyTzSub_uncolon p s a b c d hs ha hb hc hd]
  rw [hlast]
  intro hEq
  rw [Option.some.injEq] at hEq
  rw [hEq] at hd
  exact absurd hd (by decide)

theorem normalizeTz_colon (p : List Char) (s a b c d : Char) (hd : d.isDigit = true) :
    normalizeTz (p ++ [s, a, b, ':', c, d]) = p ++ [s, a, b, ':', c, d] := by
  have hlast : (p ++ [s, a, b, ':', c, d]).getLast? = some d := by
    rw [show p ++ [s, a, b, ':', c, d] = (p ++ [s, a, b, ':', c]) ++ [d] by simp,
      List.getLast?_append_cons]
    rfl
  unfold normalizeTz
  rw [if_neg, applyTzSub_colon p s a b c d]
  rw [hlast]
  intro hEq
  rw [Option.some.injEq] at hEq
  rw [hEq] at hd
  exact absurd hd (by decide)

/-- C7: timestamp decoding normalizes a colon-less timezone offset before
parsing.  For every date-time prefix `p` and offset digits, the string with
offset `±HHMM` normalizes to exactly the string with offset `±HH:MM`, and a
string already carrying a colon-separated offset is left unchanged by the
normalization; consequently `datetime.fromisoformat` - or any parser -
applied after normalization yields the same instant for both spellings. -/
theorem tz_offset_normalization_sound (p : List Char) (s a b c d : Char)
    (hs : s = '+' ∨ s = '-') (ha : a.isDigit = true) (hb : b.isDigit = true)
    (hc : c.isDigit = true) (hd : d.isDigit = true) :
    normalizeTzOffset ⟨p ++ [s, a, b, c, d]⟩ = ⟨p ++ [s, a, b, ':', c, d]⟩
    ∧ normalizeTzOffset ⟨p ++ [s, a, b, ':', c, d]⟩ = ⟨p ++ [s, a, b, ':', c, d]⟩
    ∧ ∀ {α : Type} (parse : String → α),
        parse (normalizeTzOffset ⟨p ++ [s, a, b, c, d]⟩) =
        parse (normalizeTzOffset ⟨p ++ [s, a, b, ':', c, d]⟩) := by
  have h1 : normalizeTzOffset ⟨p ++ [s, a, b, c, d]⟩ = ⟨p ++ [s, a, b, ':', c, d]⟩ :=
    congrArg String.mk (normalizeTz_uncolon p s a b c d hs ha hb hc hd)
  have h2 : normalizeTzOffset ⟨p ++ [s, a, b, ':', c, d]⟩ = ⟨p ++ [s, a, b, ':', c, d]⟩ :=
    congrArg String.mk (normalizeTz_colon p s a b c d hd)
  exact ⟨h1, h2, fun parse => by rw [h1, h2]⟩

/-- Witness for C7 at the concrete timestamp of End-to-end scenario 4. -/
theorem tz_offset_normalization_sound_witness :
    normalizeTzOffset ⟨"2024-01-01T12:00:00".data ++ ['+', '0', '3', '0', '0']⟩ =
      ⟨"2024-01-01T12:00:00".data ++ ['+', '0', '3', ':', '0', '0']⟩
    ∧ normalizeTzOffset ⟨"2024-01-01T12:00:00".data ++ ['+', '0', '3', ':', '0', '0']⟩ =
      ⟨"2024-01-01T12:00:00".data ++ ['+', '0', '3', ':', '0', '0']⟩ :=
  ⟨(tz_offset_normalization_sound "2024-01-01T12:00:00".data '+' '0' '3' '0' '0'
      (Or.inl rfl) (by decide) (by decide) (by decide) (by decide)).1,
   (tz_offset_normalization_sound "2024-01-01T12:00:00".data '+' '0' '3' '0' '0'
      (Or.inl rfl) (by decide) (by decide) (by decide) (by decide)).2.1⟩

/-- C1: evaluation of the dispatch pipeline on a valid `StasisStart` message
for channel `c1` (state `Ring`) with a registered handler and a connected
controller.  The handler task is created exactly once, but the
`add_handlers` call at `ari_client.py` lines 72-76 passes the keyword
`dial_handler`, which `Channel.add_handlers` does not accept: it raises
`TypeError` (logged by the inner `except`, `errorLogged = true`), so the
channel delivered to the handler carries no bindings and calling `answer` on
it raises `ValueError` instead of producing the capability invocation
`answer("c1")`. -/
theorem stasis_start_dispatch_unbound :
    runListen st0 [.msg mStart0] =
      ([{ launched := [.start 0 sev0], errorLogged := true }], none)
    ∧ sev0.channel.answerHandler = none
    ∧ sev0.channel.answer = .error (.valueError "Answer handler not set") := by
  decide

/-- C2: evaluation of the listen loop at a transport failure.  A
`WebSocketException` raised by `self.ws.recv()` is caught by the inner
blanket `except Exception` (`ari_client.py` lines 87-90), which logs and
`continue`s; the loop keeps reading instead of transitioning to a faulted
state, and the outer `except websockets.exceptions.WebSocketException`
re-raise (lines 91-93) is unreachable.  Only `CancelledError`, which is not
an `Exception` subclass, terminates the loop. -/
theorem transport_failure_swallowed :
    listenIteration st0 (.raise .wsException) = ({ errorLogged := true }, .next)
    ∧ runListen st0 [.raise .wsException, .msg mUnknown0] =
        ([{ errorLogged := true }, { debugLogged := true }], none)
    ∧ listenIteration st0 (.raise .cancelledError) = ({}, .fault .cancelledError) := by
  decide

/-- C3: the capability surface of bound entities.  A bound `Bridge` carries
`stop` and `add_channel`, each routed to its own id; but `Channel` exposes
only `answer` and `stop` - it has no dial capability - and every call site
that tries to bind one (`controller.py` `create_channel` lines 41-46, and
the listener binding at `ari_client.py` lines 72-76) raises `TypeError`
because neither `create_with_handlers` nor `add_handlers` accepts the
`dial_handler` keyword. -/
theorem channel_dial_capability_missing :
    controllerBindChannel rawChannel0 = .error .typeError
    ∧ bindChannelFromListener channel0 = .error .typeError
    ∧ controllerBindBridge rawBridge0 = .ok bridge0
    ∧ bridge0.stop = .ok (.stopBridge, ["b1"])
    ∧ bridge0.add_channel "c1" = .ok (.bridgeAddChannel, ["b1", "c1"])
    ∧ Channel.create_with_handlers .answerChannel .stopChannel rawChannel0 =
        .ok { channel0 with answerHandler := some .answerChannel,
                            stopHandler := some .stopChannel } := by
  decide

/-- C9 counterexample: capability bindings ARE equality-significant under
pydantic v2.  `add_handlers` leaves every data field unchanged, yet the
bound channel compares unequal to the unbound channel with identical data,
because `BaseModel.__eq__` compares the `__pydantic_private__` dictionary
holding the handlers. -/
theorem bindings_equality_significant :
    (channel0.add_handlers .answerChannel .stopChannel).data = channel0.data
    ∧ Channel.pyEq channel0 (channel0.add_handlers .answerChannel .stopChannel) = false
    ∧ Bridge.pyEq (Bridge.mk bridgeData0 none none) bridge0 = false
    ∧ (Bridge.mk bridgeData0 none none).data = bridge0.data := by
  decide

/-- C9 amended: attaching bindings leaves every data field of the entity
unchanged, and pydantic equality holds exactly when the data fields AND the
capability bindings both agree - identical data with differing or absent
bindings compares unequal. -/
theorem binding_equality_semantics :
    (∀ (c : Channel) (ah sh : Cap), (c.add_handlers ah sh).data = c.data)
    ∧ (∀ a b : Channel, Channel.pyEq a b = true ↔
        a.data = b.data ∧ a.answerHandler = b.answerHandler ∧ a.stopHandler = b.stopHandler)
    ∧ (∀ a b : Bridge, Bridge.pyEq a b = true ↔
        a.data = b.data ∧ a.stopHandler = b.stopHandler ∧ a.addChannelHandler = b.addChannelHandler) := by
  refine ⟨fun c ah sh => rfl, fun a b => ?_, fun a b => ?_⟩ <;>
    simp [Channel.pyEq, Bridge.pyEq, Bool.and_eq_true, decide_eq_true_eq] <;> tauto

/-- C10: an unbound entity never silently no-ops and never reaches the
control plane - with no bindings attached, `Channel.answer` and
`Channel.stop` raise `ValueError` with the messages from
`models/channels.py` lines 69-77, and `Bridge.stop` / `Bridge.add_channel`
raise `ValueError` with the messages from `models/bridge.py` lines 57-65;
in each case no capability invocation is produced. -/
theorem unbound_entities_raise (d : ChannelData) (bd : BridgeData) (cid : String) :
    (Channel.mk d none none).answer = .error (.valueError "Answer handler not set")
    ∧ (Channel.mk d none none).stop = .error (.valueError "Stop handler not set")
    ∧ (Bridge.mk bd none none).stop = .error (.valueError "Stop handler not set")
    ∧ (Bridge.mk bd none none).add_channel cid = .error (.valueError "Add channel handler not set") :=
  ⟨rfl, rfl, rfl, rfl⟩

/-- Witness for C10 at concrete unbound entities. -/
theorem unbound_entities_raise_witness :
    (Channel.mk channel0.data none none).answer = .error (.valueError "Answer handler not set")
    ∧ (Channel.mk channel0.data none none).stop = .error (.valueError "Stop handler not set")
    ∧ (Bridge.mk bridgeData0 none none).stop = .error (.valueError "Stop handler not set")
    ∧ (Bridge.mk bridgeData0 none none).add_channel "c1" =
        .error (.valueError "Add channel handler not set") :=
  unbound_entities_raise channel0.data bridgeData0 "c1"

theorem event_validate_error (m : RawMsg) (e : PyErr)
    (h : Event.model_validate_json m = .error e) : e = .validationError := by
  unfold Event.model_validate_json at h
  split at h
  · split at h
    · exact Except.noConfusion h
    · injection h with h2
      exact h2.symm
  · injection h with h2
    exact h2.symm

theorem channel_validate_error (rc : RawChannel) (e : PyErr)
    (h : Channel.model_validate rc = .error e) : e = .validationError := by
  unfold Channel.model_validate at h
  split at h
  · exact Except.noConfusion h
  · injection h with h2
    exact h2.symm

theorem sse_validate_error (m : RawMsg) (e : PyErr)
    (h : StasisStartEvent.model_validate_json m = .error e) : e = .validationError := by
  unfold StasisStartEvent.model_validate_json at h
  split at h
  · split at h
    · injection h with h2
      exact h2.symm
    · split at h
      · split at h
        · next e0 hch =>
          injection h with h2
          rw [← h2]
          exact channel_validate_error _ e0 hch
        · exact Except.noConfusion h
      · injection h with h2
        exact h2.symm
  · injection h with h2
    exact h2.symm

theorem see_validate_error (m : RawMsg) (e : PyErr)
    (h : StasisEndEvent.model_validate_json m = .error e) : e = .validationError := by
  unfold StasisEndEvent.model_validate_json at h
  split at h
  · split at h
    · injection h with h2
      exact h2.symm
    · split at h
      · split at h
        · next e0 hch =>
          injection h with h2
          rw [← h2]
          exact channel_validate_error _ e0 hch
        · exact Except.noConfusion h
      · injection h with h2
        exact h2.symm
  · injection h with h2
    exact h2.symm

theorem bindChannelFromListener_typeError (c : Channel) :
    bindChannelFromListener c = .error .typeError := rfl

theorem listenInner_error_is_exception (st : ClientState) (m : RawMsg)
    (eff : List Launch × Bool) (e : PyErr)
    (h : listenInner st m = (eff, some e)) : e.isExceptionSubclass = true := by
  unfold listenInner at h
  split at h
  · next e0 hev =>
    simp only [Prod.mk.injEq, Option.some.injEq] at h
    rw [← h.2, event_validate_error m e0 hev]
    rfl
  · next ev hev =>
    split at h
    · split at h
      · next e0 hsse =>
        simp only [Prod.mk.injEq, Option.some.injEq] at h
        rw [← h.2, sse_validate_error m e0 hsse]
        rfl
      · next sev hsse =>
        split at h <;> split at h <;>
        first
        | (rw [bindChannelFromListener_typeError] at h
           dsimp only at h
           simp only [Prod.mk.injEq, Option.some.injEq] at h
           rw [← h.2]
           rfl)
        | simp at h
    · split at h
      · split at h
        · next e0 hsee =>
          simp only [Prod.mk.injEq, Option.some.injEq] at h
          rw [← h.2, see_validate_error m e0 hsee]
          rfl
        · next sev hsee =>
          split at h <;> split at h <;>
          first
          | (rw [bindChannelFromListener_typeError] at h
             dsimp only at h
             simp only [Prod.mk.injEq, Option.some.injEq] at h
             rw [← h.2]
             rfl)
          | simp at h
      · simp only [Prod.mk.injEq] at h
        exact absurd h.2 (by simp)

theorem listenIteration_msg_next (st : ClientState) (m : RawMsg) :
    (listenIteration st (.msg m)).2 = .next := by
  rcases hin : listenInner st m with ⟨⟨ls, dbg⟩, err?⟩
  cases err? with
  | none => simp [listenIteration, hin]
  | some e =>
    have he := listenInner_error_is_exception st m (ls, dbg) e hin
    simp [listenIteration, hin, he]

theorem runListen_all_msgs (st : ClientState) (ms : List RawMsg) :
    runListen st (ms.map RecvResult.msg) =
      (ms.map (fun m => (listenIteration st (.msg m)).1), none) := by
  induction ms with
  | nil => rfl
  | cons m rest ih =>
    have h2 := listenIteration_msg_next st m
    rcases hit : listenIteration st (.msg m) with ⟨e0, c⟩
    rw [hit] at h2
    simp only at h2
    subst h2
    simp [runListen, hit, ih]

theorem decodeFails_inner (st : ClientState) (m : RawMsg)
    (h : decodeFails m = true) :
    listenInner st m = (([], false), some PyErr.validationError) := by
  unfold decodeFails at h
  unfold listenInner
  split at h
  · next e0 hev =>
    rw [event_validate_error m e0 hev]
  · next ev hev =>
    split at h
    · next htype =>
      rw [if_pos htype]
      split at h
      · next e0 hsse =>
        rw [sse_validate_error m e0 hsse]
      · exact absurd h (by simp)
    · next htype =>
      rw [if_neg htype]
      split at h
      · next htype2 =>
        rw [if_pos htype2]
        split at h
        · next e0 hsee =>
          rw [see_validate_error m e0 hsee]
        · exact absurd h (by simp)
      · exact absurd h (by simp)

theorem decodeFails_dropped (st : ClientState) (m : RawMsg)
    (h : decodeFails m = true) :
    listenIteration st (.msg m) = ({ errorLogged := true }, .next) := by
  have hin := decodeFails_inner st m h
  simp [listenIteration, hin]
  rfl

/-- C4: a single-message decode failure is never loop-fatal.  Over any
stream of delivered messages the loop never faults and processes every
message independently (so every valid message after a malformed one is
still dispatched), and a message failing envelope or typed-payload
validation produces no handler launch - it is dropped with an error log and
the loop continues. -/
theorem malformed_messages_nonfatal (st : ClientState) (ms : List RawMsg) :
    runListen st (ms.map RecvResult.msg) =
      (ms.map (fun m => (listenIteration st (.msg m)).1), none)
    ∧ ∀ m : RawMsg, decodeFails m = true →
        listenIteration st (.msg m) = ({ errorLogged := true }, .next) :=
  ⟨runListen_all_msgs st ms, fun m h => decodeFails_dropped st m h⟩

/-- Witness for C4 on a concrete stream interleaving a non-JSON message and
a known-kind message missing its required channel with valid messages. -/
theorem malformed_messages_nonfatal_witness :
    runListen st0 ([mMalformed0, mStart0, mNoChannel0, mUnknown0].map RecvResult.msg) =
      ([mMalformed0, mStart0, mNoChannel0, mUnknown0].map
        (fun m => (listenIteration st0 (.msg m)).1), none)
    ∧ listenIteration st0 (.msg mNoChannel0) = ({ errorLogged := true }, .next) :=
  ⟨(malformed_messages_nonfatal st0 [mMalformed0, mStart0, mNoChannel0, mUnknown0]).1,
   (malformed_messages_nonfatal st0 []).2 mNoChannel0 (by decide)⟩

theorem runListenWithTasks_effects (st : ClientState) (steps : List SchedStep) :
    (runListenWithTasks st steps).1.2 = (runListen st (steps.map SchedStep.recv)).1
    ∧ (runListenWithTasks st steps).2 = (runListen st (steps.map SchedStep.recv)).2 := by
  induction steps with
  | nil => exact ⟨rfl, rfl⟩
  | cons s rest ih =>
    rcases hit : listenIteration st s.recv with ⟨e0, c⟩
    cases c with
    | next => simp [runListenWithTasks, runListen, hit, ih.1, ih.2]
    | fault e => simp [runListenWithTasks, runListen, hit]

/-- C5: handler failures are isolated from the dispatch loop.  Running the
loop while completed handler tasks fire their `_handle_task_exception`
done-callbacks produces exactly the same per-iteration effects and the same
loop outcome as ignoring the handler tasks entirely - a raising handler
never changes what is dispatched next nor faults the loop - and every
handler exception deriving from `Exception` is absorbed by the callback
(nothing escapes) and logged. -/
theorem handler_failures_isolated (st : ClientState) (steps : List SchedStep) :
    ((runListenWithTasks st steps).1.2 = (runListen st (steps.map SchedStep.recv)).1
      ∧ (runListenWithTasks st steps).2 = (runListen st (steps.map SchedStep.recv)).2)
    ∧ ∀ e : PyErr, e.isExceptionSubclass = true →
        handle_task_exception (.error e) = (none, true) :=
  ⟨runListenWithTasks_effects st steps,
   fun e he => by simp [handle_task_exception, he]⟩

/-- Witness for C5: a handler raising a generic exception is logged and
absorbed, and a loop round in which such a task completes dispatches the
same effects as the round without it. -/
theorem handler_failures_isolated_witness :
    handle_task_exception (.error (.otherError "boom")) = (none, true)
    ∧ (runListenWithTasks st0 [⟨[.error (.otherError "boom")], .msg mStart0⟩]).1.2 =
        (runListen st0 [.msg mStart0]).1 :=
  ⟨(handler_failures_isolated st0 []).2 (.otherError "boom") (by decide),
   (handler_failures_isolated st0 [⟨[.error (.otherError "boom")], .msg mStart0⟩]).1.1⟩

/-- C6 counterexample: the decoded generic envelope does NOT retain the
original message fields.  Two unknown-kind messages that differ in their
non-type fields decode to the same minimal `Event`, which carries only the
kind (pydantic drops unknown fields under its default `extra='ignore'`). -/
theorem envelope_drops_unknown_fields :
    Event.model_validate_json mUnknown0 = .ok ⟨"unknown-future-kind"⟩
    ∧ Event.model_validate_json mUnknownBare0 = .ok ⟨"unknown-future-kind"⟩
    ∧ mUnknown0.extra ≠ mUnknownBare0.extra := by
  decide

/-- C6 amended: a well-formed message of an unrecognized kind decodes
without failure into a minimal envelope carrying only the kind (its other
fields are discarded), no handler is invoked for it, and the loop continues
to the next message with debug-level reporting only. -/
theorem unknown_kind_downlevel (st : ClientState) (m : RawMsg) (t : String)
    (hp : m.parseOk = true) (ht : m.type? = some t)
    (h1 : t ≠ "StasisStart") (h2 : t ≠ "StasisEnd") :
    Event.model_validate_json m = .ok ⟨t⟩
    ∧ listenIteration st (.msg m) = ({ debugLogged := true }, .next) := by
  have hev : Event.model_validate_json m = .ok ⟨t⟩ := by
    unfold Event.model_validate_json
    rw [if_pos hp, ht]
  refine ⟨hev, ?_⟩
  simp [listenIteration, listenInner, hev, h1, h2]

/-- Witness for C6 at End-to-end scenario 3's message. -/
theorem unknown_kind_downlevel_witness :
    Event.model_validate_json mUnknown0 = .ok ⟨"unknown-future-kind"⟩
    ∧ listenIteration st0 (.msg mUnknown0) = ({ debugLogged := true }, .next) :=
  unknown_kind_downlevel st0 mUnknown0 "unknown-future-kind"
    (by decide) (by decide) (by decide) (by decide)

theorem listenInner_launch (st : ClientState) (m : RawMsg)
    (ls : List Launch) (dbg : Bool) (err? : Option PyErr)
    (hin : listenInner st m = ((ls, dbg), err?)) (l : Launch) (hl : l ∈ ls) :
    (l.isStart = true → st.stasisStartHandler = some l.handlerId)
    ∧ (l.isStart = false → st.stasisEndHandler = some l.handlerId) := by
  unfold listenInner at hin
  split at hin
  · next e0 hev =>
    simp only [Prod.mk.injEq] at hin
    rw [← hin.1.1] at hl
    exact absurd hl (List.not_mem_nil l)
  · next ev hev =>
    split at hin
    · split at hin
      · next e0 hsse =>
        simp only [Prod.mk.injEq] at hin
        rw [← hin.1.1] at hl
        exact absurd hl (List.not_mem_nil l)
      · next sev hsse =>
        rw [bindChannelFromListener_typeError] at hin
        dsimp only at hin
        rcases hstart : st.stasisStartHandler with - | h0 <;> rw [hstart] at hin <;>
          dsimp only at hin <;> split at hin <;>
          simp only [Prod.mk.injEq] at hin <;>
          rw [← hin.1.1] at hl
        · exact absurd hl (List.not_mem_nil l)
        · exact absurd hl (List.not_mem_nil l)
        · simp only [List.mem_singleton] at hl
          subst hl
          exact ⟨fun _ => rfl, fun hf => by simp [Launch.isStart] at hf⟩
        · simp only [List.mem_singleton] at hl
          subst hl
          exact ⟨fun _ => rfl, fun hf => by simp [Launch.isStart] at hf⟩
    · split at hin
      · split at hin
        · next e0 hsee =>
          simp only [Prod.mk.injEq] at hin
          rw [← hin.1.1] at hl
          exact absurd hl (List.not_mem_nil l)
        · next sev hsee =>
          rw [bindChannelFromListener_typeError] at hin
          dsimp only at hin
          rcases hend : st.stasisEndHandler with - | h0 <;> rw [hend] at hin <;>
            dsimp only at hin <;> split at hin <;>
            simp only [Prod.mk.injEq] at hin <;>
            rw [← hin.1.1] at hl
          · exact absurd hl (List.not_mem_nil l)
          · exact absurd hl (List.not_mem_nil l)
          · simp only [List.mem_singleton] at hl
            subst hl
            exact ⟨fun hf => by simp [Launch.isStart] at hf, fun _ => rfl⟩
          · simp only [List.mem_singleton] at hl
            subst hl
            exact ⟨fun hf => by simp [Launch.isStart] at hf, fun _ => rfl⟩
      · simp only [Prod.mk.injEq] at hin
        rw [← hin.1.1] at hl
        exact absurd hl (List.not_mem_nil l)

theorem launch_uses_registered (st : ClientState) (r : RecvResult) (l : Launch)
    (hl : l ∈ (listenIteration st r).1.launched) :
    (l.isStart = true → st.stasisStartHandler = some l.handlerId)
    ∧ (l.isStart = false → st.stasisEndHandler = some l.handlerId) := by
  cases r with
  | raise e =>
    rcases he : e.isExceptionSubclass with - | - <;>
      simp [listenIteration, he] at hl
  | msg m =>
    rcases hin : listenInner st m with ⟨⟨ls, dbg⟩, err?⟩
    have hls : l ∈ ls := by
      cases err? with
      | none => simpa [listenIteration, hin] using hl
      | some e =>
        rcases he : e.isExceptionSubclass with - | - <;>
          simpa [listenIteration, hin, he] using hl
    exact listenInner_launch st m ls dbg err? hin l hls

theorem runListen_effect_mem (st : ClientState) (rs : List RecvResult)
    (eff : IterEffects) (he : eff ∈ (runListen st rs).1) :
    ∃ r ∈ rs, eff = (listenIteration st r).1 := by
  induction rs with
  | nil => simp [runListen] at he
  | cons r rest ih =>
    rcases hit : listenIteration st r with ⟨e0, c⟩
    cases c with
    | next =>
      simp only [runListen, hit] at he
      rcases List.mem_cons.mp he with h1 | h2
      · exact ⟨r, List.mem_cons_self r rest, by rw [hit, h1]⟩
      · obtain ⟨r2, hr2, heq⟩ := ih h2
        exact ⟨r2, List.mem_cons_of_mem r hr2, heq⟩
    | fault e =>
      simp only [runListen, hit, List.mem_singleton] at he
      exact ⟨r, List.mem_cons_self r rest, by rw [hit, he]⟩

/-- C8: registering a StasisStart handler replaces the previous one without
error (last registration wins), and every StasisStart dispatch performed
afterwards launches only the newly registered handler, never the replaced
one. -/
theorem handler_replacement (st : ClientState) (h1 h2 : Nat)
    (rs : List RecvResult) (hne : h1 ≠ h2) :
    (on_stasis_start (on_stasis_start st h1) h2).stasisStartHandler = some h2
    ∧ ∀ eff ∈ (runListen (on_stasis_start (on_stasis_start st h1) h2) rs).1,
        ∀ l ∈ eff.launched, l.isStart = true →
          l.handlerId = h2 ∧ l.handlerId ≠ h1 := by
  refine ⟨rfl, ?_⟩
  intro eff hmem l hl hstart
  obtain ⟨r, -, rfl⟩ := runListen_effect_mem _ rs eff hmem
  have hreg := (launch_uses_registered _ r l hl).1 hstart
  have hid : h2 = l.handlerId := by
    have : some h2 = some l.handlerId := hreg
    injection this
  exact ⟨hid.symm, fun hcontra => hne (by rw [hcontra] at hid; exact hid.symm)⟩

/-- Witness for C8: registering handler 7 then handler 9 and dispatching a
valid StasisStart message launches handler 9 only. -/
theorem handler_replacement_witness :
    (on_stasis_start (on_stasis_start { hasController := true } 7) 9).stasisStartHandler = some 9
    ∧ (Launch.start 9 sev0).handlerId = 9 ∧ (Launch.start 9 sev0).handlerId ≠ 7 :=
  ⟨(handler_replacement { hasController := true } 7 9 [.msg mStart0] (by decide)).1,
   (handler_replacement { hasController := true } 7 9 [.msg mStart0] (by decide)).2
     { launched := [.start 9 sev0], errorLogged := true } (by decide)
     (.start 9 sev0) (by decide) (by decide)⟩

end AriSpec
